import Mathlib

/-!
Shallow embedding of `src/i2c/modern.rs` (esp-idf-hal I2C driver, beta
`i2c_master`/`i2c_slave` API).

Modelling approach: every native ESP-IDF primitive (`i2c_master_receive`,
`i2c_master_register_event_callbacks`, ...) returns an `esp_err_t` code; the
Rust `esp!` macro turns a nonzero code into `Err(EspError)`.  We model each
Rust operation as a pure function from an environment recording the codes the
native layer would return at each call site, to a pair of an `Outcome`
(the Rust `Result`, plus an `abort` case for `unwrap`-on-`Err` panics, which
abort on the target) and the list of externally observable events the
operation performs, in order: native calls, bus-lock operations and
`Notifier` waits.
-/

namespace EspIdfHal

/-- The native `esp_err_t` error-code type (`i32` in the bindings). -/
abbrev EspErrCode := Int

/-- `ESP_OK`: success code of the native layer. -/
def ESP_OK : EspErrCode := 0

/-- `ESP_FAIL`: the native layer's generic failure code. -/
def ESP_FAIL : EspErrCode := -1

/-- `ESP_ERR_INVALID_ARG` (`0x102`). -/
def ESP_ERR_INVALID_ARG : EspErrCode := 258

namespace config

/-- `config::DeviceAddress`: tagged 7-bit (`u8`) or 10-bit (`u16`) address. -/
inductive DeviceAddress where
  | SevenBit (addr : Fin 256)
  | TenBit (addr : Fin 65536)

/-- `DeviceAddress::address`: the numeric address as `u16` (the `u8` of
`SevenBit` is zero-extended, so the value is unchanged). -/
def DeviceAddress.address : DeviceAddress → Nat
  | DeviceAddress.SevenBit addr => addr.val
  | DeviceAddress.TenBit addr => addr.val

/-- The `i2c_addr_bit_len_t` flag derived from a `DeviceAddress`
(`From<DeviceAddress> for i2c_addr_bit_len_t`): `true` means 10-bit. -/
def DeviceAddress.isTenBit : DeviceAddress → Bool
  | DeviceAddress.SevenBit _ => false
  | DeviceAddress.TenBit _ => true

/-- `config::DeviceConfig`: device address plus baud rate in Hertz. -/
structure DeviceConfig where
  address : DeviceAddress
  baudrate : Nat

/-- `DeviceConfig::new`: default baudrate is `Hertz(1_000_000)`. -/
def DeviceConfig.new (address : DeviceAddress) : DeviceConfig :=
  { address := address, baudrate := 1000000 }

end config

/-- Externally observable actions of the driver: native calls, bus-lock
operations and `Notifier` waits, in program order. -/
inductive Event where
  | lockAcquire
  | lockRelease
  | tryLockFail
  | tryLockOk
  | armMaster (port : Nat)
  | disarmMaster
  | armSlave (port : Nat)
  | disarmSlave
  | masterReceive (len : Nat) (timeout : Nat)
  | masterTransmit (len : Nat) (timeout : Nat)
  | masterTransmitReceive (txLen : Nat) (rxLen : Nat) (timeout : Nat)
  | notifierWait (port : Nat)
  | addDevice (address : Nat) (tenBit : Bool) (baud : Nat)
  | rmDevice
  | delMasterBus
  | newSlaveDevice (address : Nat)
  | slaveReceive (len : Nat)
  | slaveTransmit (len : Nat) (timeout : Nat)
  | delSlaveDevice

/-- Result of running a Rust operation: `Ok`, `Err`, or an abort coming from
`unwrap()` on an `Err` or from `unimplemented!` (panics abort on the target). -/
inductive Outcome (ε : Type) (α : Type) where
  | ok (a : α)
  | err (e : ε)
  | abort (msg : String)

/-- Apply `Result::map_err` to the error of an `Outcome`. -/
def Outcome.mapErr {ε ε₂ α : Type} (f : ε → ε₂) : Outcome ε α → Outcome ε₂ α
  | Outcome.ok a => Outcome.ok a
  | Outcome.err e => Outcome.err (f e)
  | Outcome.abort msg => Outcome.abort msg

/-- `delay::BLOCK` (`TickType_t::MAX`): the timeout the embedded-hal trait
impls pass to the helpers. -/
def BLOCK : Nat := 4294967295

/-- `true` exactly on callback-registration ("arm") events. -/
def isArmEvent : Event → Bool
  | Event.armMaster _ => true
  | Event.armSlave _ => true
  | _ => false

/-- `true` exactly on callback-deregistration ("disarm") events. -/
def isDisarmEvent : Event → Bool
  | Event.disarmMaster => true
  | Event.disarmSlave => true
  | _ => false

/-- `true` exactly on bus-lock acquisition events (blocking or `try_lock`). -/
def isLockEvent : Event → Bool
  | Event.lockAcquire => true
  | Event.tryLockFail => true
  | Event.tryLockOk => true
  | _ => false

/-- `true` exactly on the `i2c_del_master_bus` event. -/
def isDelMasterBus : Event → Bool
  | Event.delMasterBus => true
  | _ => false

/-- `init_device`: rejects a baudrate strictly above 1 MHz with
`ESP_ERR_INVALID_ARG` before calling the native layer; otherwise calls
`i2c_master_bus_add_device` (whose result code is `addDeviceCode`). The
opaque device handle is modelled as `Unit`. -/
def init_device (addDeviceCode : EspErrCode) (config : config.DeviceConfig) :
    Except EspErrCode Unit × List Event :=
  if config.baudrate > 1000000 then
    (Except.error ESP_ERR_INVALID_ARG, [])
  else
    let ev := Event.addDevice config.address.address config.address.isTenBit config.baudrate
    if addDeviceCode ≠ ESP_OK then
      (Except.error addDeviceCode, [ev])
    else
      (Except.ok (), [ev])

/-- Native result codes consumed by one borrowed asynchronous transfer:
the codes of `i2c_master_register_event_callbacks` (arm), of the transfer
primitive (issue), and of the deregistration (disarm).  At most one disarm
call executes per run, so a single `disarmCode` field suffices. -/
structure AsyncTransferEnv where
  armCode : EspErrCode
  issueCode : EspErrCode
  disarmCode : EspErrCode

/-- The borrowed-device asynchronous transfer protocol, common body of
`AsyncI2cDeviceDriver::{read, write, write_read}` (which differ only in the
native primitive issued, here the parameter `issueEv`): acquire the bus lock,
arm the per-port notifier callback, issue the native call (on immediate
failure, disarm with `unwrap` and propagate the issue error), await the
port's notifier, disarm, return `Ok(())`.  The lock guard is dropped on every
return path; an `unwrap` failure aborts, so no release is recorded there. -/
def asyncDevTransfer (env : AsyncTransferEnv) (port : Nat) (issueEv : Event) :
    Outcome EspErrCode Unit × List Event :=
  if env.armCode ≠ ESP_OK then
    (Outcome.err env.armCode,
      [Event.lockAcquire, Event.armMaster port, Event.lockRelease])
  else if env.issueCode ≠ ESP_OK then
    if env.disarmCode ≠ ESP_OK then
      (Outcome.abort "unwrap on Err",
        [Event.lockAcquire, Event.armMaster port, issueEv, Event.disarmMaster])
    else
      (Outcome.err env.issueCode,
        [Event.lockAcquire, Event.armMaster port, issueEv, Event.disarmMaster,
         Event.lockRelease])
  else if env.disarmCode ≠ ESP_OK then
    (Outcome.err env.disarmCode,
      [Event.lockAcquire, Event.armMaster port, issueEv, Event.notifierWait port,
       Event.disarmMaster, Event.lockRelease])
  else
    (Outcome.ok (),
      [Event.lockAcquire, Event.armMaster port, issueEv, Event.notifierWait port,
       Event.disarmMaster, Event.lockRelease])

/-- `AsyncI2cDeviceDriver::read`: the protocol with `i2c_master_receive`. -/
def AsyncI2cDeviceDriver.read (env : AsyncTransferEnv) (port : Nat)
    (bufLen : Nat) (timeout : Nat) : Outcome EspErrCode Unit × List Event :=
  asyncDevTransfer env port (Event.masterReceive bufLen timeout)

/-- `AsyncI2cDeviceDriver::write`: the protocol with `i2c_master_transmit`. -/
def AsyncI2cDeviceDriver.write (env : AsyncTransferEnv) (port : Nat)
    (len : Nat) (timeout : Nat) : Outcome EspErrCode Unit × List Event :=
  asyncDevTransfer env port (Event.masterTransmit len timeout)

/-- `AsyncI2cDeviceDriver::write_read`: the protocol with
`i2c_master_transmit_receive`. -/
def AsyncI2cDeviceDriver.write_read (env : AsyncTransferEnv) (port : Nat)
    (txLen : Nat) (rxLen : Nat) (timeout : Nat) :
    Outcome EspErrCode Unit × List Event :=
  asyncDevTransfer env port (Event.masterTransmitReceive txLen rxLen timeout)

/-- `OwnedAsyncI2cDeviceDriver::wrap`: `init_device` on the owned bus, then
arm the callback once; both failures propagate. -/
def OwnedAsyncI2cDeviceDriver.wrap (addDeviceCode : EspErrCode)
    (armCode : EspErrCode) (port : Nat) (device_config : config.DeviceConfig) :
    Except EspErrCode Unit × List Event :=
  match init_device addDeviceCode device_config with
  | (Except.error e, evs) => (Except.error e, evs)
  | (Except.ok _, evs) =>
    if armCode ≠ ESP_OK then
      (Except.error armCode, evs ++ [Event.armMaster port])
    else
      (Except.ok (), evs ++ [Event.armMaster port])

/-- Common body of `OwnedAsyncI2cDeviceDriver::{read, write, write_read}`:
issue the native call (propagating immediate failure), then await the port's
notifier and return `Ok(())`.  No arm, disarm or lock operation occurs. -/
def ownedDevTransfer (issueCode : EspErrCode) (port : Nat) (issueEv : Event) :
    Outcome EspErrCode Unit × List Event :=
  if issueCode ≠ ESP_OK then
    (Outcome.err issueCode, [issueEv])
  else
    (Outcome.ok (), [issueEv, Event.notifierWait port])

/-- `OwnedAsyncI2cDeviceDriver::read`. -/
def OwnedAsyncI2cDeviceDriver.read (issueCode : EspErrCode) (port : Nat)
    (bufLen : Nat) (timeout : Nat) : Outcome EspErrCode Unit × List Event :=
  ownedDevTransfer issueCode port (Event.masterReceive bufLen timeout)

/-- `OwnedAsyncI2cDeviceDriver::write`. -/
def OwnedAsyncI2cDeviceDriver.write (issueCode : EspErrCode) (port : Nat)
    (len : Nat) (timeout : Nat) : Outcome EspErrCode Unit × List Event :=
  ownedDevTransfer issueCode port (Event.masterTransmit len timeout)

/-- `OwnedAsyncI2cDeviceDriver::write_read`. -/
def OwnedAsyncI2cDeviceDriver.write_read (issueCode : EspErrCode) (port : Nat)
    (txLen : Nat) (rxLen : Nat) (timeout : Nat) :
    Outcome EspErrCode Unit × List Event :=
  ownedDevTransfer issueCode port (Event.masterTransmitReceive txLen rxLen timeout)

/-- `Drop for AsyncI2cDriver`: loop on `bus_lock.try_lock()` until it
succeeds, then `i2c_del_master_bus(..).unwrap()` and break.  `failedTries`
is the number of attempts on which the lock is still held; the attempt after
them succeeds.  A failing delete aborts (`unwrap`). -/
def AsyncI2cDriver.drop (failedTries : Nat) (delCode : EspErrCode) :
    Outcome EspErrCode Unit × List Event :=
  match failedTries with
  | 0 =>
    if delCode ≠ ESP_OK then
      (Outcome.abort "unwrap on Err", [Event.tryLockOk, Event.delMasterBus])
    else
      (Outcome.ok (), [Event.tryLockOk, Event.delMasterBus])
  | Nat.succ k =>
    let r := AsyncI2cDriver.drop k delCode
    (r.1, Event.tryLockFail :: r.2)

/-- `Drop for AsyncI2cDeviceDriver`: loop on the owning bus's `try_lock`
until it succeeds, then `i2c_master_bus_rm_device(..).unwrap()` and break. -/
def AsyncI2cDeviceDriver.drop (failedTries : Nat) (rmCode : EspErrCode) :
    Outcome EspErrCode Unit × List Event :=
  match failedTries with
  | 0 =>
    if rmCode ≠ ESP_OK then
      (Outcome.abort "unwrap on Err", [Event.tryLockOk, Event.rmDevice])
    else
      (Outcome.ok (), [Event.tryLockOk, Event.rmDevice])
  | Nat.succ k =>
    let r := AsyncI2cDeviceDriver.drop k rmCode
    (r.1, Event.tryLockFail :: r.2)

/-- `I2cSlaveDriver::new`: `init_slave_device` (native
`i2c_new_slave_device`, result code `newCode`), then
`enable_slave_isr_callback` (arm, result code `armCode`); both failures
propagate. -/
def I2cSlaveDriver.new (newCode : EspErrCode) (armCode : EspErrCode)
    (port : Nat) (address : config.DeviceAddress) :
    Except EspErrCode Unit × List Event :=
  if newCode ≠ ESP_OK then
    (Except.error newCode, [Event.newSlaveDevice address.address])
  else if armCode ≠ ESP_OK then
    (Except.error armCode,
      [Event.newSlaveDevice address.address, Event.armSlave port])
  else
    (Except.ok (),
      [Event.newSlaveDevice address.address, Event.armSlave port])

/-- `I2cSlaveDriver::async_read`: issue `i2c_slave_receive` (propagating
immediate failure), then await the port's notifier and return `Ok(())`. -/
def I2cSlaveDriver.async_read (issueCode : EspErrCode) (port : Nat)
    (bufLen : Nat) : Outcome EspErrCode Unit × List Event :=
  if issueCode ≠ ESP_OK then
    (Outcome.err issueCode, [Event.slaveReceive bufLen])
  else
    (Outcome.ok (), [Event.slaveReceive bufLen, Event.notifierWait port])

/-- The `NoAcknowledgeSource` of the embedded-hal error kind. -/
inductive NoAcknowledgeSource where
  | Unknown
  | Address
  | Data

/-- The embedded-hal `ErrorKind` cases `to_i2c_err` can produce. -/
inductive ErrorKind where
  | NoAcknowledge (source : NoAcknowledgeSource)
  | Other

/-- `I2cError` (from `embedded_hal_error!`): an embedded-hal kind plus the
underlying native `EspError`, kept unchanged as the cause. -/
structure I2cError where
  kind : ErrorKind
  cause : EspErrCode

/-- `to_i2c_err`: `ESP_FAIL` becomes `NoAcknowledge(Unknown)`; every other
code becomes `Other`; in both cases the native error is carried through. -/
def to_i2c_err (err : EspErrCode) : I2cError :=
  if err = ESP_FAIL then
    { kind := ErrorKind.NoAcknowledge NoAcknowledgeSource.Unknown, cause := err }
  else
    { kind := ErrorKind.Other, cause := err }

/-- An embedded-hal `Operation` in a transaction. -/
inductive Operation where
  | read (len : Nat)
  | write (bytes : List (Fin 256))

/-- `I2cDriver`'s `embedded_hal::i2c::I2c::transaction`:
`unimplemented!("transactional not implemented")`, performing nothing. -/
def I2cDriver.transaction (_addr : Fin 256) (_operations : List Operation) :
    Outcome I2cError Unit × List Event :=
  (Outcome.abort "transactional not implemented", [])

/-- `I2cDeviceDriver`'s `embedded_hal::i2c::I2c::transaction`:
`unimplemented!("transactional not implemented")`, performing nothing. -/
def I2cDeviceDriver.transaction (_addr : Fin 256) (_operations : List Operation) :
    Outcome I2cError Unit × List Event :=
  (Outcome.abort "transactional not implemented", [])

/-- `AsyncI2cDriver`'s `embedded_hal_async::i2c::I2c::transaction`:
`unimplemented!("transactional not implemented")`, performing nothing. -/
def AsyncI2cDriver.transaction (_addr : Fin 256) (_operations : List Operation) :
    Outcome I2cError Unit × List Event :=
  (Outcome.abort "transactional not implemented", [])

/-- `AsyncI2cDeviceDriver`'s `embedded_hal_async::i2c::I2c::transaction`:
`unimplemented!("transactional not implemented")`, performing nothing. -/
def AsyncI2cDeviceDriver.transaction (_addr : Fin 256)
    (_operations : List Operation) : Outcome I2cError Unit × List Event :=
  (Outcome.abort "transactional not implemented", [])

/-- `OwnedAsyncI2cDeviceDriver`'s `embedded_hal_async::i2c::I2c::transaction`:
`unimplemented!("transactional not implemented")`, performing nothing. -/
def OwnedAsyncI2cDeviceDriver.transaction (_addr : Fin 256)
    (_operations : List Operation) : Outcome I2cError Unit × List Event :=
  (Outcome.abort "transactional not implemented", [])

/-- `I2cDriver::device` delegates to `I2cDeviceDriver::new`, which is
`init_device` on the bus handle. -/
def I2cDriver.device (addDeviceCode : EspErrCode)
    (config : config.DeviceConfig) : Except EspErrCode Unit × List Event :=
  init_device addDeviceCode config

/-- `AsyncI2cDriver::device` delegates to `AsyncI2cDeviceDriver::new`, which
is `init_device` on the bus handle. -/
def AsyncI2cDriver.device (addDeviceCode : EspErrCode)
    (config : config.DeviceConfig) : Except EspErrCode Unit × List Event :=
  init_device addDeviceCode config

/-- `AsyncI2cDriver::owned_device` delegates to
`OwnedAsyncI2cDeviceDriver::wrap`. -/
def AsyncI2cDriver.owned_device (addDeviceCode : EspErrCode)
    (armCode : EspErrCode) (port : Nat) (config : config.DeviceConfig) :
    Except EspErrCode Unit × List Event :=
  OwnedAsyncI2cDeviceDriver.wrap addDeviceCode armCode port config

/-- Native result codes consumed by one `I2cDriver` embedded-hal helper
(`I2cDriver::{read, write, write_read}`): `i2c_master_bus_add_device`, the
blocking transfer primitive, and the `i2c_master_bus_rm_device` of the
temporary device's `Drop`. -/
structure SyncHelperEnv where
  addDeviceCode : EspErrCode
  transferCode : EspErrCode
  rmCode : EspErrCode

/-- Propagation of the `?` on `self.device(config)` in the bus helpers: a
device-creation error returns at once with the trace so far; on success the
rest of the helper (`k`) runs after the creation trace. -/
def withDevice (i : Except EspErrCode Unit × List Event)
    (k : List Event → Outcome EspErrCode Unit × List Event) :
    Outcome EspErrCode Unit × List Event :=
  match i with
  | (Except.error e, evs) => (Outcome.err e, evs)
  | (Except.ok _, evs) => k evs

/-- Common body of the private `I2cDriver::{read, write, write_read}`
helpers: attach a temporary device at the given 7-bit address with
`DeviceConfig::new`'s defaults, run the blocking transfer `issueEv` through
it, then drop it (`i2c_master_bus_rm_device(..).unwrap()`, whose failure
aborts) before returning the transfer's result. -/
def syncBusHelper (env : SyncHelperEnv) (addr : Fin 256) (issueEv : Event) :
    Outcome EspErrCode Unit × List Event :=
  withDevice (init_device env.addDeviceCode
      (config.DeviceConfig.new (config.DeviceAddress.SevenBit addr)))
    (fun evs =>
      let evs2 := evs ++ [issueEv, Event.rmDevice]
      if env.rmCode ≠ ESP_OK then
        (Outcome.abort "unwrap on Err", evs2)
      else if env.transferCode ≠ ESP_OK then
        (Outcome.err env.transferCode, evs2)
      else
        (Outcome.ok (), evs2))

/-- Private helper `I2cDriver::read` (used by the embedded-hal impls with
`timeout = BLOCK`). -/
def I2cDriver.read (env : SyncHelperEnv) (addr : Fin 256) (bufLen : Nat)
    (timeout : Nat) : Outcome EspErrCode Unit × List Event :=
  syncBusHelper env addr (Event.masterReceive bufLen timeout)

/-- Private helper `I2cDriver::write`. -/
def I2cDriver.write (env : SyncHelperEnv) (addr : Fin 256) (len : Nat)
    (timeout : Nat) : Outcome EspErrCode Unit × List Event :=
  syncBusHelper env addr (Event.masterTransmit len timeout)

/-- Private helper `I2cDriver::write_read`. -/
def I2cDriver.write_read (env : SyncHelperEnv) (addr : Fin 256)
    (txLen : Nat) (rxLen : Nat) (timeout : Nat) :
    Outcome EspErrCode Unit × List Event :=
  syncBusHelper env addr (Event.masterTransmitReceive txLen rxLen timeout)

/-- Native result codes consumed by one `AsyncI2cDriver` embedded-hal helper:
the add-device code, the borrowed-transfer protocol codes, and the
`rm_device` code plus the number of failed `try_lock` attempts of the
temporary device's `Drop` loop. -/
structure AsyncHelperEnv where
  addDeviceCode : EspErrCode
  armCode : EspErrCode
  issueCode : EspErrCode
  disarmCode : EspErrCode
  rmCode : EspErrCode
  dropFailedTries : Nat

/-- Sequencing of the temporary device's `Drop` after the transfer in the
asynchronous bus helpers: an abort during the transfer stops the run before
the drop; otherwise the drop runs, its own abort (a failing
`rm_device.unwrap()`) wins, and else the transfer's result is returned with
both traces appended. -/
def thenDrop : Outcome EspErrCode Unit × List Event →
    Outcome EspErrCode Unit × List Event →
    Outcome EspErrCode Unit × List Event
  | (Outcome.abort msg, tevs), _ => (Outcome.abort msg, tevs)
  | (Outcome.ok _u, tevs), (Outcome.abort msg, devs) =>
    (Outcome.abort msg, tevs ++ devs)
  | (Outcome.ok u, tevs), (Outcome.ok _, devs) => (Outcome.ok u, tevs ++ devs)
  | (Outcome.ok u, tevs), (Outcome.err _, devs) => (Outcome.ok u, tevs ++ devs)
  | (Outcome.err _e, tevs), (Outcome.abort msg, devs) => (Outcome.abort msg, tevs ++ devs)
  | (Outcome.err e, tevs), (Outcome.ok _, devs) => (Outcome.err e, tevs ++ devs)
  | (Outcome.err e, tevs), (Outcome.err _, devs) => (Outcome.err e, tevs ++ devs)

/-- Common body of the private `AsyncI2cDriver::{read, write, write_read}`
helpers: attach a temporary device at the given 7-bit address with
`DeviceConfig::new`'s defaults, run the borrowed asynchronous transfer
protocol (with `timeout = BLOCK`) through it, then drop it (its `Drop` loops
on `try_lock`, then removes the device).  An abort anywhere stops the run;
otherwise the transfer's result is returned after the drop. -/
def asyncBusHelper (env : AsyncHelperEnv) (port : Nat) (addr : Fin 256)
    (issueEv : Event) : Outcome EspErrCode Unit × List Event :=
  withDevice (init_device env.addDeviceCode
      (config.DeviceConfig.new (config.DeviceAddress.SevenBit addr)))
    (fun evs =>
      let td := thenDrop
        (asyncDevTransfer
          { armCode := env.armCode, issueCode := env.issueCode,
            disarmCode := env.disarmCode } port issueEv)
        (AsyncI2cDeviceDriver.drop env.dropFailedTries env.rmCode)
      (td.1, evs ++ td.2))

/-- Private helper `AsyncI2cDriver::read` (issues `i2c_master_receive` with
`BLOCK` as the timeout, as the source does). -/
def AsyncI2cDriver.read (env : AsyncHelperEnv) (port : Nat) (addr : Fin 256)
    (bufLen : Nat) : Outcome EspErrCode Unit × List Event :=
  asyncBusHelper env port addr (Event.masterReceive bufLen BLOCK)

/-- Private helper `AsyncI2cDriver::write`. -/
def AsyncI2cDriver.write (env : AsyncHelperEnv) (port : Nat) (addr : Fin 256)
    (len : Nat) : Outcome EspErrCode Unit × List Event :=
  asyncBusHelper env port addr (Event.masterTransmit len BLOCK)

/-- Private helper `AsyncI2cDriver::write_read`. -/
def AsyncI2cDriver.write_read (env : AsyncHelperEnv) (port : Nat)
    (addr : Fin 256) (txLen : Nat) (rxLen : Nat) :
    Outcome EspErrCode Unit × List Event :=
  asyncBusHelper env port addr (Event.masterTransmitReceive txLen rxLen BLOCK)

/-- On a free lock (after `failedTries` failed attempts) and a succeeding
native remove, the device drop loop yields its failed attempts, the
successful acquisition, and one `rm_device`. -/
theorem asyncDeviceDrop_ok (k : Nat) :
    AsyncI2cDeviceDriver.drop k ESP_OK =
      (Outcome.ok (), List.replicate k Event.tryLockFail ++
        [Event.tryLockOk, Event.rmDevice]) := by
  induction k with
  | zero => simp [AsyncI2cDeviceDriver.drop]
  | succ k ih => simp [AsyncI2cDeviceDriver.drop, ih, List.replicate_succ]

/-- When device creation succeeds, `withDevice` runs its continuation on the
creation trace. -/
theorem withDevice_ok (u : Unit) (evs : List Event)
    (k : List Event → Outcome EspErrCode Unit × List Event) :
    withDevice (Except.ok u, evs) k = k evs := rfl

/-- When both the transfer and the drop end in `ok`, `thenDrop` returns the
transfer's result with the traces appended. -/
theorem thenDrop_ok (u : Unit) (tevs devs : List Event) :
    thenDrop (Outcome.ok u, tevs) (Outcome.ok (), devs) =
      (Outcome.ok u, tevs ++ devs) := rfl

/-- With a baudrate within range and a succeeding native add-device call,
`init_device` returns the handle and the single add-device event. -/
theorem init_device_add (addDeviceCode : EspErrCode)
    (cfg : config.DeviceConfig) (hb : ¬ cfg.baudrate > 1000000)
    (hc : addDeviceCode = ESP_OK) :
    init_device addDeviceCode cfg =
      (Except.ok (), [Event.addDevice cfg.address.address
        cfg.address.isTenBit cfg.baudrate]) := by
  rw [hc]
  simp [init_device, hb]

/-- Claim C4: dropping an `AsyncI2cDriver` first retries `try_lock` on the
bus transfer lock until it succeeds and only then frees the native bus
handle, exactly once; the free is never performed while the lock is held
(every event before `delMasterBus` is a failed attempt or the successful
acquisition). -/
theorem c4_async_bus_drop_frees_after_lock (k : Nat) :
    AsyncI2cDriver.drop k ESP_OK =
      (Outcome.ok (), List.replicate k Event.tryLockFail ++
        [Event.tryLockOk, Event.delMasterBus]) ∧
    (∀ delCode : EspErrCode,
      ((AsyncI2cDriver.drop k delCode).2.countP isDelMasterBus) = 1) := by
  induction k with
  | zero =>
    constructor
    · simp [AsyncI2cDriver.drop]
    · intro delCode
      by_cases h : delCode = ESP_OK <;>
        simp [AsyncI2cDriver.drop, h, List.countP_cons, isDelMasterBus]
  | succ k ih =>
    constructor
    · simp [AsyncI2cDriver.drop, ih.1, List.replicate_succ]
    · intro delCode
      simp [AsyncI2cDriver.drop, List.countP_cons, isDelMasterBus, ih.2 delCode]

/-- Claim C5: constructing a device (`init_device`, `device`,
`owned_device`) with a baudrate strictly above 1 MHz fails with
`ESP_ERR_INVALID_ARG` and an empty event trace (so before any native
allocation); with a baudrate of 1 MHz or less the validation passes and the
native `i2c_master_bus_add_device` call is issued. -/
theorem c5_baudrate_validation (addDeviceCode armCode : EspErrCode)
    (port : Nat) (cfg : config.DeviceConfig) :
    (cfg.baudrate > 1000000 →
      init_device addDeviceCode cfg = (Except.error ESP_ERR_INVALID_ARG, []) ∧
      I2cDriver.device addDeviceCode cfg = (Except.error ESP_ERR_INVALID_ARG, []) ∧
      AsyncI2cDriver.device addDeviceCode cfg = (Except.error ESP_ERR_INVALID_ARG, []) ∧
      AsyncI2cDriver.owned_device addDeviceCode armCode port cfg =
        (Except.error ESP_ERR_INVALID_ARG, [])) ∧
    (cfg.baudrate ≤ 1000000 →
      (init_device addDeviceCode cfg).2 =
        [Event.addDevice cfg.address.address cfg.address.isTenBit cfg.baudrate]) := by
  constructor
  · intro h
    have hi : init_device addDeviceCode cfg = (Except.error ESP_ERR_INVALID_ARG, []) := by
      simp [init_device, h]
    refine ⟨hi, hi, hi, ?_⟩
    simp [AsyncI2cDriver.owned_device, OwnedAsyncI2cDeviceDriver.wrap, hi]
  · intro h
    have h2 : ¬ cfg.baudrate > 1000000 := not_lt.mpr h
    by_cases hc : addDeviceCode = ESP_OK <;> simp [init_device, h2, hc]

/-- Witness for C5: a 2 MHz device config is rejected with
`ESP_ERR_INVALID_ARG` and no native call; a 400 kHz config reaches the
native add-device call. -/
theorem c5_baudrate_validation_witness :
    init_device ESP_OK
      { address := config.DeviceAddress.SevenBit 35, baudrate := 2000000 } =
      (Except.error ESP_ERR_INVALID_ARG, []) ∧
    (init_device ESP_OK
      { address := config.DeviceAddress.SevenBit 35, baudrate := 400000 }).2 =
      [Event.addDevice 35 false 400000] :=
  ⟨((c5_baudrate_validation ESP_OK ESP_OK 0
      { address := config.DeviceAddress.SevenBit 35, baudrate := 2000000 }).1
      (by decide)).1,
   (c5_baudrate_validation ESP_OK ESP_OK 0
      { address := config.DeviceAddress.SevenBit 35, baudrate := 400000 }).2
      (by decide)⟩

/-- Claim C6: `DeviceAddress` round-trips its numeric value: `SevenBit n`
reads back as `n` for every 7-bit address, `TenBit m` as `m`, and in
particular `0x50` yields 80 and `0x321` yields 801. -/
theorem c6_device_address_roundtrip :
    (∀ n : Fin 256, (config.DeviceAddress.SevenBit n).address = n.val) ∧
    (∀ m : Fin 65536, (config.DeviceAddress.TenBit m).address = m.val) ∧
    (config.DeviceAddress.SevenBit 80).address = 80 ∧
    (config.DeviceAddress.TenBit 801).address = 801 :=
  ⟨fun _ => rfl, fun _ => rfl, by decide, by decide⟩

/-- Claim C7: `to_i2c_err` maps the native generic failure code `ESP_FAIL`
to `NoAcknowledge` and every other code to `Other`, carrying the native
error through unchanged in both cases. -/
theorem c7_to_i2c_err_mapping (e : EspErrCode) :
    to_i2c_err ESP_FAIL =
      { kind := ErrorKind.NoAcknowledge NoAcknowledgeSource.Unknown,
        cause := ESP_FAIL } ∧
    (e ≠ ESP_FAIL → to_i2c_err e = { kind := ErrorKind.Other, cause := e }) := by
  constructor
  · simp [to_i2c_err]
  · intro h
    simp [to_i2c_err, h]

/-- Witness for C7: `ESP_ERR_INVALID_ARG` is not `ESP_FAIL` and maps to
`Other` with the code carried through. -/
theorem c7_to_i2c_err_mapping_witness :
    to_i2c_err ESP_ERR_INVALID_ARG =
      { kind := ErrorKind.Other, cause := ESP_ERR_INVALID_ARG } :=
  (c7_to_i2c_err_mapping ESP_ERR_INVALID_ARG).2 (by decide)

/-- Claim C8: on every driver type exposing the embedded-hal I2c trait, the
`transaction` operation aborts with the explicit "transactional not
implemented" failure on every input and performs no operation at all. -/
theorem c8_transaction_unimplemented (addr : Fin 256)
    (operations : List Operation) :
    I2cDriver.transaction addr operations =
      (Outcome.abort "transactional not implemented", []) ∧
    I2cDeviceDriver.transaction addr operations =
      (Outcome.abort "transactional not implemented", []) ∧
    AsyncI2cDriver.transaction addr operations =
      (Outcome.abort "transactional not implemented", []) ∧
    AsyncI2cDeviceDriver.transaction addr operations =
      (Outcome.abort "transactional not implemented", []) ∧
    OwnedAsyncI2cDeviceDriver.transaction addr operations =
      (Outcome.abort "transactional not implemented", []) :=
  ⟨rfl, rfl, rfl, rfl, rfl⟩

/-- Claim C1: when the native calls succeed, each of `read`, `write` and
`write_read` on a borrowed `AsyncI2cDeviceDriver` performs exactly, in
order: acquire the bus transfer lock, arm the per-port notifier callback,
issue the native non-blocking transfer, await the port's notifier, disarm
the callback, and return `Ok(())`; the lock is acquired before the arm and
released only after the disarm. -/
theorem c1_borrowed_async_protocol (env : AsyncTransferEnv)
    (port bufLen txLen rxLen timeout : Nat)
    (harm : env.armCode = ESP_OK) (hissue : env.issueCode = ESP_OK)
    (hdisarm : env.disarmCode = ESP_OK) :
    AsyncI2cDeviceDriver.read env port bufLen timeout =
      (Outcome.ok (), [Event.lockAcquire, Event.armMaster port,
        Event.masterReceive bufLen timeout, Event.notifierWait port,
        Event.disarmMaster, Event.lockRelease]) ∧
    AsyncI2cDeviceDriver.write env port txLen timeout =
      (Outcome.ok (), [Event.lockAcquire, Event.armMaster port,
        Event.masterTransmit txLen timeout, Event.notifierWait port,
        Event.disarmMaster, Event.lockRelease]) ∧
    AsyncI2cDeviceDriver.write_read env port txLen rxLen timeout =
      (Outcome.ok (), [Event.lockAcquire, Event.armMaster port,
        Event.masterTransmitReceive txLen rxLen timeout, Event.notifierWait port,
        Event.disarmMaster, Event.lockRelease]) := by
  refine ⟨?_, ?_, ?_⟩ <;>
    simp [AsyncI2cDeviceDriver.read, AsyncI2cDeviceDriver.write,
      AsyncI2cDeviceDriver.write_read, asyncDevTransfer, harm, hissue, hdisarm]

/-- Witness for C1: the protocol on port 0 with an all-success native
environment. -/
theorem c1_borrowed_async_protocol_witness :
    AsyncI2cDeviceDriver.read
      { armCode := ESP_OK, issueCode := ESP_OK, disarmCode := ESP_OK } 0 4 100 =
      (Outcome.ok (), [Event.lockAcquire, Event.armMaster 0,
        Event.masterReceive 4 100, Event.notifierWait 0,
        Event.disarmMaster, Event.lockRelease]) :=
  (c1_borrowed_async_protocol
    { armCode := ESP_OK, issueCode := ESP_OK, disarmCode := ESP_OK }
    0 4 2 3 100 rfl rfl rfl).1

/-- Claim C2: in the borrowed asynchronous transfer protocol, an arm failure
propagates the arm error with no disarm performed; an immediate issue
failure with a succeeding disarm performs the disarm and propagates the
original issue error; an immediate issue failure with a failing disarm
aborts (the disarm result is `unwrap`ed). -/
theorem c2_borrowed_async_error_paths (env : AsyncTransferEnv) (port : Nat)
    (issueEv : Event) :
    (env.armCode ≠ ESP_OK →
      asyncDevTransfer env port issueEv =
        (Outcome.err env.armCode,
          [Event.lockAcquire, Event.armMaster port, Event.lockRelease]) ∧
      (asyncDevTransfer env port issueEv).2.countP isDisarmEvent = 0) ∧
    (env.armCode = ESP_OK → env.issueCode ≠ ESP_OK → env.disarmCode = ESP_OK →
      asyncDevTransfer env port issueEv =
        (Outcome.err env.issueCode,
          [Event.lockAcquire, Event.armMaster port, issueEv,
           Event.disarmMaster, Event.lockRelease])) ∧
    (env.armCode = ESP_OK → env.issueCode ≠ ESP_OK → env.disarmCode ≠ ESP_OK →
      asyncDevTransfer env port issueEv =
        (Outcome.abort "unwrap on Err",
          [Event.lockAcquire, Event.armMaster port, issueEv,
           Event.disarmMaster])) := by
  refine ⟨fun h1 => ⟨?_, ?_⟩, fun h1 h2 h3 => ?_, fun h1 h2 h3 => ?_⟩ <;>
    simp_all [asyncDevTransfer, isDisarmEvent, List.countP_cons]

/-- Witness for C2: the three error paths of the protocol at concrete native
environments (arm fails; issue fails and disarm succeeds; issue fails and
disarm fails). -/
theorem c2_borrowed_async_error_paths_witness :
    (asyncDevTransfer { armCode := ESP_FAIL, issueCode := ESP_OK, disarmCode := ESP_OK }
        1 (Event.masterTransmit 2 7) =
      (Outcome.err ESP_FAIL,
        [Event.lockAcquire, Event.armMaster 1, Event.lockRelease])) ∧
    (asyncDevTransfer { armCode := ESP_OK, issueCode := ESP_FAIL, disarmCode := ESP_OK }
        1 (Event.masterTransmit 2 7) =
      (Outcome.err ESP_FAIL,
        [Event.lockAcquire, Event.armMaster 1, Event.masterTransmit 2 7,
         Event.disarmMaster, Event.lockRelease])) ∧
    (asyncDevTransfer { armCode := ESP_OK, issueCode := ESP_FAIL, disarmCode := ESP_FAIL }
        1 (Event.masterTransmit 2 7) =
      (Outcome.abort "unwrap on Err",
        [Event.lockAcquire, Event.armMaster 1, Event.masterTransmit 2 7,
         Event.disarmMaster])) :=
  ⟨((c2_borrowed_async_error_paths
      { armCode := ESP_FAIL, issueCode := ESP_OK, disarmCode := ESP_OK }
      1 (Event.masterTransmit 2 7)).1 (by decide)).1,
   (c2_borrowed_async_error_paths
      { armCode := ESP_OK, issueCode := ESP_FAIL, disarmCode := ESP_OK }
      1 (Event.masterTransmit 2 7)).2.1 rfl (by decide) rfl,
   (c2_borrowed_async_error_paths
      { armCode := ESP_OK, issueCode := ESP_FAIL, disarmCode := ESP_FAIL }
      1 (Event.masterTransmit 2 7)).2.2 rfl (by decide) (by decide)⟩

/-- Claim C3: the owned asynchronous device arms the completion callback
exactly once, at construction (`wrap`), and every `read`, `write` and
`write_read` performs no arm, no disarm and no bus-lock acquisition
whatever the native outcome; on a succeeding native call each transfer only
issues the native primitive and then awaits the port's notifier before
returning `Ok(())`. -/
theorem c3_owned_device_protocol (addDeviceCode armCode issueCode : EspErrCode)
    (port bufLen txLen rxLen timeout : Nat) (cfg : config.DeviceConfig)
    (hbaud : cfg.baudrate ≤ 1000000) (hadd : addDeviceCode = ESP_OK)
    (harm : armCode = ESP_OK) :
    (OwnedAsyncI2cDeviceDriver.wrap addDeviceCode armCode port cfg).1 =
      Except.ok () ∧
    (OwnedAsyncI2cDeviceDriver.wrap addDeviceCode armCode port cfg).2.countP
      isArmEvent = 1 ∧
    (∀ c : EspErrCode,
      (OwnedAsyncI2cDeviceDriver.read c port bufLen timeout).2.countP
        isArmEvent = 0 ∧
      (OwnedAsyncI2cDeviceDriver.read c port bufLen timeout).2.countP
        isDisarmEvent = 0 ∧
      (OwnedAsyncI2cDeviceDriver.read c port bufLen timeout).2.countP
        isLockEvent = 0 ∧
      (OwnedAsyncI2cDeviceDriver.write c port txLen timeout).2.countP
        isArmEvent = 0 ∧
      (OwnedAsyncI2cDeviceDriver.write c port txLen timeout).2.countP
        isDisarmEvent = 0 ∧
      (OwnedAsyncI2cDeviceDriver.write c port txLen timeout).2.countP
        isLockEvent = 0 ∧
      (OwnedAsyncI2cDeviceDriver.write_read c port txLen rxLen timeout).2.countP
        isArmEvent = 0 ∧
      (OwnedAsyncI2cDeviceDriver.write_read c port txLen rxLen timeout).2.countP
        isDisarmEvent = 0 ∧
      (OwnedAsyncI2cDeviceDriver.write_read c port txLen rxLen timeout).2.countP
        isLockEvent = 0) ∧
    (issueCode = ESP_OK →
      OwnedAsyncI2cDeviceDriver.read issueCode port bufLen timeout =
        (Outcome.ok (),
          [Event.masterReceive bufLen timeout, Event.notifierWait port]) ∧
      OwnedAsyncI2cDeviceDriver.write issueCode port txLen timeout =
        (Outcome.ok (),
          [Event.masterTransmit txLen timeout, Event.notifierWait port]) ∧
      OwnedAsyncI2cDeviceDriver.write_read issueCode port txLen rxLen timeout =
        (Outcome.ok (),
          [Event.masterTransmitReceive txLen rxLen timeout,
           Event.notifierWait port])) := by
  have h2 : ¬ cfg.baudrate > 1000000 := not_lt.mpr hbaud
  refine ⟨?_, ?_, fun c => ?_, fun hi => ?_⟩
  · simp [OwnedAsyncI2cDeviceDriver.wrap, init_device, h2, hadd, harm]
  · simp [OwnedAsyncI2cDeviceDriver.wrap, init_device, h2, hadd, harm,
      List.countP_cons, isArmEvent]
  · by_cases hc : c = ESP_OK <;>
      simp [OwnedAsyncI2cDeviceDriver.read, OwnedAsyncI2cDeviceDriver.write,
        OwnedAsyncI2cDeviceDriver.write_read, ownedDevTransfer, hc,
        List.countP_cons, isArmEvent, isDisarmEvent, isLockEvent]
  · refine ⟨?_, ?_, ?_⟩ <;>
      simp [OwnedAsyncI2cDeviceDriver.read, OwnedAsyncI2cDeviceDriver.write,
        OwnedAsyncI2cDeviceDriver.write_read, ownedDevTransfer, hi]

/-- Witness for C3: construction arms once and a concrete read issues then
awaits, with an all-success native environment on port 0. -/
theorem c3_owned_device_protocol_witness :
    (OwnedAsyncI2cDeviceDriver.wrap ESP_OK ESP_OK 0
      { address := config.DeviceAddress.SevenBit 35, baudrate := 100000 }).2.countP
      isArmEvent = 1 ∧
    OwnedAsyncI2cDeviceDriver.read ESP_OK 0 4 100 =
      (Outcome.ok (), [Event.masterReceive 4 100, Event.notifierWait 0]) :=
  ⟨(c3_owned_device_protocol ESP_OK ESP_OK ESP_OK 0 4 2 3 100
      { address := config.DeviceAddress.SevenBit 35, baudrate := 100000 }
      (by decide) rfl rfl).2.1,
   ((c3_owned_device_protocol ESP_OK ESP_OK ESP_OK 0 4 2 3 100
      { address := config.DeviceAddress.SevenBit 35, baudrate := 100000 }
      (by decide) rfl rfl).2.2.2 rfl).1⟩

/-- Claim C9: the slave driver arms its completion callback exactly once at
construction; `async_read` first issues the native receive primitive, on
immediate failure propagates the error without awaiting, and only on
success awaits the port's notifier and returns `Ok(())`; `async_read`
performs no arm and no disarm. -/
theorem c9_slave_async_read (newCode armCode issueCode : EspErrCode)
    (port bufLen : Nat) (address : config.DeviceAddress)
    (hnew : newCode = ESP_OK) (harm : armCode = ESP_OK) :
    (I2cSlaveDriver.new newCode armCode port address).1 = Except.ok () ∧
    (I2cSlaveDriver.new newCode armCode port address).2.countP isArmEvent = 1 ∧
    (issueCode = ESP_OK →
      I2cSlaveDriver.async_read issueCode port bufLen =
        (Outcome.ok (),
          [Event.slaveReceive bufLen, Event.notifierWait port])) ∧
    (issueCode ≠ ESP_OK →
      I2cSlaveDriver.async_read issueCode port bufLen =
        (Outcome.err issueCode, [Event.slaveReceive bufLen])) ∧
    (I2cSlaveDriver.async_read issueCode port bufLen).2.countP isArmEvent = 0 ∧
    (I2cSlaveDriver.async_read issueCode port bufLen).2.countP
      isDisarmEvent = 0 := by
  refine ⟨?_, ?_, fun hi => ?_, fun hi => ?_, ?_, ?_⟩
  · simp [I2cSlaveDriver.new, hnew, harm]
  · simp [I2cSlaveDriver.new, hnew, harm, List.countP_cons, isArmEvent]
  · simp [I2cSlaveDriver.async_read, hi]
  · simp [I2cSlaveDriver.async_read, hi]
  · by_cases hc : issueCode = ESP_OK <;>
      simp [I2cSlaveDriver.async_read, hc, List.countP_cons, isArmEvent]
  · by_cases hc : issueCode = ESP_OK <;>
      simp [I2cSlaveDriver.async_read, hc, List.countP_cons, isDisarmEvent]

/-- Witness for C9: slave construction on port 0 arms once; a concrete
`async_read` issues the receive then awaits. -/
theorem c9_slave_async_read_witness :
    (I2cSlaveDriver.new ESP_OK ESP_OK 0
      (config.DeviceAddress.SevenBit 35)).2.countP isArmEvent = 1 ∧
    I2cSlaveDriver.async_read ESP_OK 0 8 =
      (Outcome.ok (), [Event.slaveReceive 8, Event.notifierWait 0]) :=
  ⟨(c9_slave_async_read ESP_OK ESP_OK ESP_OK 0 8
      (config.DeviceAddress.SevenBit 35) rfl rfl).2.1,
   (c9_slave_async_read ESP_OK ESP_OK ESP_OK 0 8
      (config.DeviceAddress.SevenBit 35) rfl rfl).2.2.1 rfl⟩

/-- Claim C10: when the native calls succeed, each embedded-hal helper
`read`/`write`/`write_read` on the bus drivers `I2cDriver` and
`AsyncI2cDriver` with a 7-bit address first attaches a fresh temporary
device at that address with `DeviceConfig::new`'s default 1 MHz baudrate,
performs the single transfer through it, and removes the temporary device
handle (last event) before returning. -/
theorem c10_bus_helpers_temporary_device (senv : SyncHelperEnv)
    (aenv : AsyncHelperEnv) (port : Nat) (addr : Fin 256)
    (bufLen txLen rxLen timeout : Nat)
    (h1 : senv.addDeviceCode = ESP_OK) (h2 : senv.transferCode = ESP_OK)
    (h3 : senv.rmCode = ESP_OK)
    (h4 : aenv.addDeviceCode = ESP_OK) (h5 : aenv.armCode = ESP_OK)
    (h6 : aenv.issueCode = ESP_OK) (h7 : aenv.disarmCode = ESP_OK)
    (h8 : aenv.rmCode = ESP_OK) :
    I2cDriver.read senv addr bufLen timeout =
      (Outcome.ok (), [Event.addDevice addr.val false 1000000,
        Event.masterReceive bufLen timeout, Event.rmDevice]) ∧
    I2cDriver.write senv addr txLen timeout =
      (Outcome.ok (), [Event.addDevice addr.val false 1000000,
        Event.masterTransmit txLen timeout, Event.rmDevice]) ∧
    I2cDriver.write_read senv addr txLen rxLen timeout =
      (Outcome.ok (), [Event.addDevice addr.val false 1000000,
        Event.masterTransmitReceive txLen rxLen timeout, Event.rmDevice]) ∧
    AsyncI2cDriver.read aenv port addr bufLen =
      (Outcome.ok (), Event.addDevice addr.val false 1000000 ::
        Event.lockAcquire :: Event.armMaster port ::
        Event.masterReceive bufLen BLOCK :: Event.notifierWait port ::
        Event.disarmMaster :: Event.lockRelease ::
        (List.replicate aenv.dropFailedTries Event.tryLockFail ++
          [Event.tryLockOk, Event.rmDevice])) ∧
    AsyncI2cDriver.write aenv port addr txLen =
      (Outcome.ok (), Event.addDevice addr.val false 1000000 ::
        Event.lockAcquire :: Event.armMaster port ::
        Event.masterTransmit txLen BLOCK :: Event.notifierWait port ::
        Event.disarmMaster :: Event.lockRelease ::
        (List.replicate aenv.dropFailedTries Event.tryLockFail ++
          [Event.tryLockOk, Event.rmDevice])) ∧
    AsyncI2cDriver.write_read aenv port addr txLen rxLen =
      (Outcome.ok (), Event.addDevice addr.val false 1000000 ::
        Event.lockAcquire :: Event.armMaster port ::
        Event.masterTransmitReceive txLen rxLen BLOCK ::
        Event.notifierWait port :: Event.disarmMaster :: Event.lockRelease ::
        (List.replicate aenv.dropFailedTries Event.tryLockFail ++
          [Event.tryLockOk, Event.rmDevice])) := by
  have hb : ¬ (config.DeviceConfig.new
      (config.DeviceAddress.SevenBit addr)).baudrate > 1000000 := by
    simp [config.DeviceConfig.new]
  have hinitS := init_device_add senv.addDeviceCode
    (config.DeviceConfig.new (config.DeviceAddress.SevenBit addr)) hb h1
  have hinitA := init_device_add aenv.addDeviceCode
    (config.DeviceConfig.new (config.DeviceAddress.SevenBit addr)) hb h4
  have htrans : ∀ ev : Event, asyncDevTransfer
      { armCode := aenv.armCode, issueCode := aenv.issueCode,
        disarmCode := aenv.disarmCode } port ev =
      (Outcome.ok (), [Event.lockAcquire, Event.armMaster port, ev,
        Event.notifierWait port, Event.disarmMaster, Event.lockRelease]) := by
    intro ev
    simp [asyncDevTransfer, h5, h6, h7]
  refine ⟨?_, ?_, ?_, ?_, ?_, ?_⟩
  · rw [I2cDriver.read, syncBusHelper, hinitS, withDevice_ok]
    simp [config.DeviceConfig.new, config.DeviceAddress.address,
      config.DeviceAddress.isTenBit, h2, h3]
  · rw [I2cDriver.write, syncBusHelper, hinitS, withDevice_ok]
    simp [config.DeviceConfig.new, config.DeviceAddress.address,
      config.DeviceAddress.isTenBit, h2, h3]
  · rw [I2cDriver.write_read, syncBusHelper, hinitS, withDevice_ok]
    simp [config.DeviceConfig.new, config.DeviceAddress.address,
      config.DeviceAddress.isTenBit, h2, h3]
  · rw [AsyncI2cDriver.read, asyncBusHelper, hinitA, withDevice_ok, htrans,
      h8, asyncDeviceDrop_ok, thenDrop_ok]
    simp [config.DeviceConfig.new, config.DeviceAddress.address,
      config.DeviceAddress.isTenBit]
  · rw [AsyncI2cDriver.write, asyncBusHelper, hinitA, withDevice_ok, htrans,
      h8, asyncDeviceDrop_ok, thenDrop_ok]
    simp [config.DeviceConfig.new, config.DeviceAddress.address,
      config.DeviceAddress.isTenBit]
  · rw [AsyncI2cDriver.write_read, asyncBusHelper, hinitA, withDevice_ok,
      htrans, h8, asyncDeviceDrop_ok, thenDrop_ok]
    simp [config.DeviceConfig.new, config.DeviceAddress.address,
      config.DeviceAddress.isTenBit]

/-- Witness for C10: the sync and async bus read helpers at address `0x50`
on port 0 with an all-success native environment and an immediately free
lock at drop time. -/
theorem c10_bus_helpers_temporary_device_witness :
    I2cDriver.read
      { addDeviceCode := ESP_OK, transferCode := ESP_OK, rmCode := ESP_OK }
      80 4 50 =
      (Outcome.ok (), [Event.addDevice 80 false 1000000,
        Event.masterReceive 4 50, Event.rmDevice]) ∧
    AsyncI2cDriver.read
      { addDeviceCode := ESP_OK, armCode := ESP_OK, issueCode := ESP_OK,
        disarmCode := ESP_OK, rmCode := ESP_OK, dropFailedTries := 0 }
      0 80 4 =
      (Outcome.ok (), [Event.addDevice 80 false 1000000, Event.lockAcquire,
        Event.armMaster 0, Event.masterReceive 4 BLOCK, Event.notifierWait 0,
        Event.disarmMaster, Event.lockRelease, Event.tryLockOk,
        Event.rmDevice]) :=
  ⟨(c10_bus_helpers_temporary_device
      { addDeviceCode := ESP_OK, transferCode := ESP_OK, rmCode := ESP_OK }
      { addDeviceCode := ESP_OK, armCode := ESP_OK, issueCode := ESP_OK,
        disarmCode := ESP_OK, rmCode := ESP_OK, dropFailedTries := 0 }
      0 80 4 2 3 50 rfl rfl rfl rfl rfl rfl rfl rfl).1,
   (c10_bus_helpers_temporary_device
      { addDeviceCode := ESP_OK, transferCode := ESP_OK, rmCode := ESP_OK }
      { addDeviceCode := ESP_OK, armCode := ESP_OK, issueCode := ESP_OK,
        disarmCode := ESP_OK, rmCode := ESP_OK, dropFailedTries := 0 }
      0 80 4 2 3 50 rfl rfl rfl rfl rfl rfl rfl rfl).2.2.2.1⟩

end EspIdfHal
